import Mathlib

/-!
# Shallow embedding of the shark galaxy-evolution core

This file embeds, in Lean 4, the parts of the shark repository that the
verified claims are about:

* `src/src/physical_model.cpp` — the `BasicPhysicalModel::to_galaxy`,
  `BasicPhysicalModel::from_galaxy_starburst` and
  `BasicPhysicalModel::to_galaxy_starburst` write-back/marshalling routines;
* `src/src/stellar_feedback.cpp` — `StellarFeedback::outflow_rate`;
* `src/src/ode_solver.cpp` — `ODESolver::evolve`;
* `src/src/evolve_halos.cpp` — `adjust_main_galaxy` and
  `transfer_galaxies_to_next_snapshot`.

C++ `double` values are modelled as exact numbers: rationals (`ℚ`) for the
marshalling/transfer code, which uses only field arithmetic and comparisons,
and reals (`ℝ`) for the stellar-feedback code, which uses `std::pow` with
non-integer exponents (modelled by `Real.rpow`).  Fallible routines return
`Except SharkError`; the C++ exception classes `invalid_argument` and
`math_error` become the constructors of `SharkError`.

A few declarations referenced by the embedded translation units live in
headers that are not part of the sources (`components.h`,
`numerical_constants.h`); each such definition carries a doc comment starting
with `Modelled from the spec:` and is kept as close as possible to the spec's
words.
-/

namespace shark

/-- The exception taxonomy used by the embedded code: `invalid_argument` for
physical-consistency violations and `math_error` for fatal numeric errors,
mirroring the exception classes thrown in the sources. -/
inductive SharkError where
  | invalid_argument (msg : String)
  | math_error (msg : String)
  deriving DecidableEq, Repr

deriving instance DecidableEq for Except

/-- Modelled from the spec: the "small tolerance" below which reservoir
masses/metal masses are snapped to zero (`numerical_constants.h` is not among
the sources; the source comment in `to_galaxy` names the value `1e-10`). -/
def tolerance : ℚ := 1 / 10 ^ 10

/-- Modelled from the spec: the numeric conversion constant `EAGLEJconv` from
the missing `numerical_constants.h`, used when turning specific angular momenta
into scale radii.  Its value does not affect any verified claim; it is fixed
to 1 here. -/
def EAGLEJconv : ℚ := 1

/-- A baryon reservoir: `{mass, mass_metals, specific angular momentum,
scale radius}` (data model of `components.h`, which is not among the sources;
fields follow the spec's **BaryonComponent**). -/
structure BaryonComponent where
  mass : ℚ
  mass_metals : ℚ
  sAM : ℚ
  rscale : ℚ
  deriving DecidableEq, Repr

/-- A mass/metal accumulator pair (the spec's `BaryonBase`, used for the
burst-star accounting buckets). -/
structure BaryonBase where
  mass : ℚ
  mass_metals : ℚ
  deriving DecidableEq, Repr

/-- Modelled from the spec: `restore_baryon` resets a component "to a
canonical empty state (`restore_baryon`: all fields zeroed)". -/
def BaryonComponent.restore_baryon : BaryonComponent :=
  { mass := 0, mass_metals := 0, sAM := 0, rscale := 0 }

/-- Modelled from the spec: the merger/instability interaction counters of a
galaxy ("an interaction-history record (merger/instability counters)"). -/
structure InteractionItem where
  major_mergers : ℕ
  minor_mergers : ℕ
  disk_instabilities : ℕ
  deriving DecidableEq, Repr

/-- Modelled from the spec: `restore_interaction_item` restarts the counters of
mergers and disk instabilities (source comment in `evolve_halos.cpp`). -/
def InteractionItem.restore_interaction_item : InteractionItem :=
  { major_mergers := 0, minor_mergers := 0, disk_instabilities := 0 }

/-- `galaxy_type ∈ {CENTRAL, TYPE1, TYPE2}`. -/
inductive GalaxyType where
  | CENTRAL
  | TYPE1
  | TYPE2
  deriving DecidableEq, Repr

/-- `subhalo_type ∈ {CENTRAL, SATELLITE}`. -/
inductive SubhaloType where
  | CENTRAL
  | SATELLITE
  deriving DecidableEq, Repr

/-- The galaxy record, restricted to the fields that the embedded routines
read or write (declared in the missing `components.h`; field roles follow the
spec's **Galaxy** data model). -/
structure Galaxy where
  disk_stars : BaryonComponent
  disk_gas : BaryonComponent
  bulge_stars : BaryonComponent
  bulge_gas : BaryonComponent
  galaxymergers_burst_stars : BaryonBase
  diskinstabilities_burst_stars : BaryonBase
  sfr_disk : ℚ
  sfr_z_disk : ℚ
  sfr_bulge_mergers : ℚ
  sfr_z_bulge_mergers : ℚ
  sfr_bulge_diskins : ℚ
  sfr_z_bulge_diskins : ℚ
  interaction : InteractionItem
  galaxy_type : GalaxyType
  vmax : ℚ
  concentration_type2 : ℚ
  msubhalo_type2 : ℚ
  lambda_type2 : ℚ
  deriving DecidableEq, Repr

/-- The subhalo record, restricted to the fields the embedded routines use
(declared in the missing `components.h`; field roles follow the spec's
**Subhalo** data model).  The cooling-tracking auxiliary state is treated as a
single rational value, as the spec only describes it being carried over
wholesale. -/
structure Subhalo where
  cold_halo_gas : BaryonComponent
  hot_halo_gas : BaryonComponent
  ejected_galaxy_gas : BaryonComponent
  galaxies : List Galaxy
  subhalo_type : SubhaloType
  main_progenitor : Bool
  snapshot : ℤ
  last_snapshot_identified : ℤ
  Vvir : ℚ
  concentration : ℚ
  Mvir : ℚ
  lambda : ℚ
  cooling_subhalo_tracking : ℚ
  deriving DecidableEq, Repr

/-- `std::isnan` on a value modelled as an exact rational: exact arithmetic
has no NaN, so the predicate is constantly `false` (the source's NaN check can
only fire under IEEE floating-point semantics, which this embedding does not
model). -/
def isNaN (_ : ℚ) : Bool := false

/-- The metal-snapping step of `to_galaxy`/`to_galaxy_starburst`: a metal mass
below `tolerance` is set to zero (physical_model.cpp lines 258–272/401–412). -/
def snap_metals (c : BaryonComponent) : BaryonComponent :=
  if c.mass_metals < tolerance then { c with mass_metals := 0 } else c

/-- The mass-snapping step of `to_galaxy`/`to_galaxy_starburst`: a mass below
`tolerance` resets the whole component via `restore_baryon`
(physical_model.cpp lines 278–292/418–429). -/
def snap_mass (c : BaryonComponent) : BaryonComponent :=
  if c.mass < tolerance then BaryonComponent.restore_baryon else c

/-- The tail of `BasicPhysicalModel::to_galaxy` (physical_model.cpp lines
255–300): metal snapping for the five written reservoirs, then mass snapping,
then the final metal-exceeds-mass consistency check (which inspects only
`disk_gas`, `hot_halo_gas` and `ejected_galaxy_gas`). -/
def to_galaxy_checks (subhalo : Subhalo) (galaxy : Galaxy) :
    Except SharkError (Subhalo × Galaxy) :=
  let galaxy1 := { galaxy with
    disk_stars := snap_metals galaxy.disk_stars,
    disk_gas := snap_metals galaxy.disk_gas }
  let subhalo1 := { subhalo with
    cold_halo_gas := snap_metals subhalo.cold_halo_gas,
    hot_halo_gas := snap_metals subhalo.hot_halo_gas,
    ejected_galaxy_gas := snap_metals subhalo.ejected_galaxy_gas }
  let galaxy2 := { galaxy1 with
    disk_stars := snap_mass galaxy1.disk_stars,
    disk_gas := snap_mass galaxy1.disk_gas }
  let subhalo2 := { subhalo1 with
    cold_halo_gas := snap_mass subhalo1.cold_halo_gas,
    hot_halo_gas := snap_mass subhalo1.hot_halo_gas,
    ejected_galaxy_gas := snap_mass subhalo1.ejected_galaxy_gas }
  if galaxy2.disk_gas.mass < galaxy2.disk_gas.mass_metals ∨
      subhalo2.hot_halo_gas.mass < subhalo2.hot_halo_gas.mass_metals ∨
      subhalo2.ejected_galaxy_gas.mass < subhalo2.ejected_galaxy_gas.mass_metals then
    .error (.invalid_argument "Galaxy has more gas mass in metals that total gas mass.")
  else
    .ok (subhalo2, galaxy2)

/-- `BasicPhysicalModel::to_galaxy` (physical_model.cpp lines 198–300): the
write-back of the 17-component integrated state vector into the galaxy's disk
reservoirs and the subhalo's halo-gas reservoirs.  The state vector is a list
indexed as in the source (`y.getD i 0` models `y[i]`). -/
def to_galaxy (y : List ℚ) (subhalo : Subhalo) (galaxy : Galaxy) (delta_t : ℚ) :
    Except SharkError (Subhalo × Galaxy) :=
  if y.getD 0 0 < galaxy.disk_stars.mass then
    .error (.invalid_argument "Galaxy decreased its stellar mass after disk star formation process.")
  else
    let galaxy1 := { galaxy with
      disk_stars := { galaxy.disk_stars with mass := y.getD 0 0, mass_metals := y.getD 5 0 },
      disk_gas := { galaxy.disk_gas with mass := y.getD 1 0, mass_metals := y.getD 6 0 },
      sfr_disk := galaxy.sfr_disk + y.getD 10 0 / delta_t,
      sfr_z_disk := galaxy.sfr_z_disk + y.getD 11 0 / delta_t }
    let subhalo1 := { subhalo with
      cold_halo_gas := { subhalo.cold_halo_gas with mass := y.getD 2 0, mass_metals := y.getD 7 0 },
      hot_halo_gas := { subhalo.hot_halo_gas with mass := y.getD 3 0, mass_metals := y.getD 8 0 },
      ejected_galaxy_gas := { subhalo.ejected_galaxy_gas with mass := y.getD 4 0, mass_metals := y.getD 9 0 } }
    if 0 < y.getD 12 0 ∧ 0 < y.getD 13 0 then
      let ds_sAM := y.getD 12 0 / galaxy1.disk_stars.mass
      let dg_sAM := y.getD 13 0 / galaxy1.disk_gas.mass
      let ch_sAM := y.getD 14 0 / subhalo1.cold_halo_gas.mass
      let hh_sAM := y.getD 15 0 / subhalo1.hot_halo_gas.mass
      let ej_sAM := y.getD 16 0 / subhalo1.ejected_galaxy_gas.mass
      let galaxy2 := { galaxy1 with
        disk_stars := { galaxy1.disk_stars with
          sAM := ds_sAM,
          rscale := ds_sAM / galaxy1.vmax * EAGLEJconv },
        disk_gas := { galaxy1.disk_gas with
          sAM := dg_sAM,
          rscale := dg_sAM / galaxy1.vmax * EAGLEJconv } }
      let subhalo2 := { subhalo1 with
        cold_halo_gas := { subhalo1.cold_halo_gas with sAM := ch_sAM },
        hot_halo_gas := { subhalo1.hot_halo_gas with sAM := hh_sAM },
        ejected_galaxy_gas := { subhalo1.ejected_galaxy_gas with sAM := ej_sAM } }
      if galaxy2.disk_stars.rscale ≤ tolerance ∧ 0 < galaxy2.disk_stars.mass then
        .error (.invalid_argument "Galaxy with extremely small size, rdisk_stars < 1e-10, in physical model")
      else if isNaN galaxy2.disk_gas.sAM || isNaN galaxy2.disk_gas.rscale then
        .error (.invalid_argument "rgas or sAM are NaN, cannot continue at physical model")
      else
        to_galaxy_checks subhalo2 galaxy2
    else
      to_galaxy_checks subhalo1 galaxy1

/-- `BasicPhysicalModel::from_galaxy_starburst` (physical_model.cpp lines
303–351): marshal the bulge/halo state into the 17-component vector; the
cooling-gas slots (indices 2 and 7) are forced to zero and the five
angular-momentum slots (12–16) are left at the zero the vector was
constructed with. -/
def from_galaxy_starburst (subhalo : Subhalo) (galaxy : Galaxy) : List ℚ :=
  [galaxy.bulge_stars.mass,
   galaxy.bulge_gas.mass,
   0,
   subhalo.hot_halo_gas.mass,
   subhalo.ejected_galaxy_gas.mass,
   galaxy.bulge_stars.mass_metals,
   galaxy.bulge_gas.mass_metals,
   0,
   subhalo.hot_halo_gas.mass_metals,
   subhalo.ejected_galaxy_gas.mass_metals,
   0, 0, 0, 0, 0, 0, 0]

/-- The tail of `BasicPhysicalModel::to_galaxy_starburst` (physical_model.cpp
lines 398–437): metal snapping for the four written reservoirs, then mass
snapping, then the final metal-exceeds-mass consistency check (which inspects
only `bulge_gas`, `hot_halo_gas` and `ejected_galaxy_gas`). -/
def to_galaxy_starburst_checks (subhalo : Subhalo) (galaxy : Galaxy) :
    Except SharkError (Subhalo × Galaxy) :=
  let galaxy1 := { galaxy with
    bulge_stars := snap_metals galaxy.bulge_stars,
    bulge_gas := snap_metals galaxy.bulge_gas }
  let subhalo1 := { subhalo with
    hot_halo_gas := snap_metals subhalo.hot_halo_gas,
    ejected_galaxy_gas := snap_metals subhalo.ejected_galaxy_gas }
  let galaxy2 := { galaxy1 with
    bulge_stars := snap_mass galaxy1.bulge_stars,
    bulge_gas := snap_mass galaxy1.bulge_gas }
  let subhalo2 := { subhalo1 with
    hot_halo_gas := snap_mass subhalo1.hot_halo_gas,
    ejected_galaxy_gas := snap_mass subhalo1.ejected_galaxy_gas }
  if galaxy2.bulge_gas.mass < galaxy2.bulge_gas.mass_metals ∨
      subhalo2.hot_halo_gas.mass < subhalo2.hot_halo_gas.mass_metals ∨
      subhalo2.ejected_galaxy_gas.mass < subhalo2.ejected_galaxy_gas.mass_metals then
    .error (.invalid_argument "Galaxy has more gas mass in metals that total gas mass.")
  else
    .ok (subhalo2, galaxy2)

/-- `BasicPhysicalModel::to_galaxy_starburst` (physical_model.cpp lines
353–438): write back the integrated state into the bulge reservoirs and the
subhalo's hot/ejected gas, first crediting the newly formed stellar mass to
the merger- or instability-triggered accounting bucket.  The cold-halo-gas
reservoir of the subhalo is never assigned. -/
def to_galaxy_starburst (y : List ℚ) (subhalo : Subhalo) (galaxy : Galaxy)
    (delta_t : ℚ) (from_galaxy_merger : Bool) :
    Except SharkError (Subhalo × Galaxy) :=
  if y.getD 0 0 < galaxy.bulge_stars.mass then
    .error (.invalid_argument "Galaxy decreased its stellar mass after burst of star formation.")
  else
    let galaxy1 :=
      if from_galaxy_merger then
        { galaxy with
          galaxymergers_burst_stars := {
            mass := galaxy.galaxymergers_burst_stars.mass + (y.getD 0 0 - galaxy.bulge_stars.mass),
            mass_metals := galaxy.galaxymergers_burst_stars.mass_metals + (y.getD 5 0 - galaxy.bulge_stars.mass_metals) },
          sfr_bulge_mergers := galaxy.sfr_bulge_mergers + y.getD 10 0 / delta_t,
          sfr_z_bulge_mergers := galaxy.sfr_z_bulge_mergers + y.getD 11 0 / delta_t }
      else
        { galaxy with
          diskinstabilities_burst_stars := {
            mass := galaxy.diskinstabilities_burst_stars.mass + (y.getD 0 0 - galaxy.bulge_stars.mass),
            mass_metals := galaxy.diskinstabilities_burst_stars.mass_metals + (y.getD 5 0 - galaxy.bulge_stars.mass_metals) },
          sfr_bulge_diskins := galaxy.sfr_bulge_diskins + y.getD 10 0 / delta_t,
          sfr_z_bulge_diskins := galaxy.sfr_z_bulge_diskins + y.getD 11 0 / delta_t }
    let galaxy2 := { galaxy1 with
      bulge_stars := { galaxy1.bulge_stars with mass := y.getD 0 0, mass_metals := y.getD 5 0 },
      bulge_gas := { galaxy1.bulge_gas with mass := y.getD 1 0, mass_metals := y.getD 6 0 } }
    let subhalo1 := { subhalo with
      hot_halo_gas := { subhalo.hot_halo_gas with mass := y.getD 3 0, mass_metals := y.getD 8 0 },
      ejected_galaxy_gas := { subhalo.ejected_galaxy_gas with mass := y.getD 4 0, mass_metals := y.getD 9 0 } }
    to_galaxy_starburst_checks subhalo1 galaxy2

/-- `PhysicalModel::evolve_galaxy_starburst` (physical_model.h lines 138–166),
with the ODE integration abstracted as a function `integrate` from the
marshalled initial vector to the integrated vector, and with the
`get_solver` state-vector length check retained. -/
def evolve_galaxy_starburst (integrate : List ℚ → List ℚ) (subhalo : Subhalo)
    (galaxy : Galaxy) (delta_t : ℚ) (from_galaxy_merger : Bool) :
    Except SharkError (Subhalo × Galaxy) :=
  let y0 := from_galaxy_starburst subhalo galaxy
  if y0.length ≠ 17 then
    .error (.invalid_argument "# initial values != ODE components")
  else
    to_galaxy_starburst (integrate y0) subhalo galaxy delta_t from_galaxy_merger

/-! ## Snapshot transfer protocol (`evolve_halos.cpp`) -/

/-- Replace the first element satisfying `p` by its image under `f`, leaving
the rest unchanged: the in-place mutation of one pointed-to galaxy inside a
galaxy list, seen functionally. -/
def updateFirst (p : α → Bool) (f : α → α) : List α → List α
  | [] => []
  | a :: as => if p a then f a :: as else a :: updateFirst p f as

/-- Modelled from the spec: `Subhalo::central_galaxy` (declared in the missing
`components.h`) returns the subhalo's CENTRAL-typed galaxy — "a central
subhalo has at most one CENTRAL galaxy". -/
def Subhalo.central_galaxy (s : Subhalo) : Option Galaxy :=
  s.galaxies.find? fun g => decide (g.galaxy_type = GalaxyType.CENTRAL)

/-- Modelled from the spec: `Subhalo::type1_galaxy` (declared in the missing
`components.h`) returns the subhalo's TYPE1-typed galaxy, the central of a
satellite subhalo. -/
def Subhalo.type1_galaxy (s : Subhalo) : Option Galaxy :=
  s.galaxies.find? fun g => decide (g.galaxy_type = GalaxyType.TYPE1)

/-- The selection predicate behind `adjust_main_galaxy`: the main galaxy of a
central parent subhalo is its CENTRAL galaxy, otherwise its TYPE1 galaxy
(evolve_halos.cpp line 45). -/
def mainGalaxyPred (parent : Subhalo) : Galaxy → Bool :=
  if parent.subhalo_type = SubhaloType.CENTRAL then
    fun g => decide (g.galaxy_type = GalaxyType.CENTRAL)
  else
    fun g => decide (g.galaxy_type = GalaxyType.TYPE1)

/-- The mutation `adjust_main_galaxy` performs on the principal galaxy it
found (evolve_halos.cpp lines 50–62): reassign its type by the 2×2 decision
table on (descendant is central, parent is main progenitor), and snapshot the
parent subhalo's concentration, virial mass and spin when the new type is
TYPE2. -/
def adjustGalaxy (parent descendant : Subhalo) (g : Galaxy) : Galaxy :=
  let desc_is_central := descendant.subhalo_type = SubhaloType.CENTRAL
  let is_main_progenitor := parent.main_progenitor
  let g1 := { g with galaxy_type :=
    if desc_is_central then
      (if is_main_progenitor then GalaxyType.CENTRAL else GalaxyType.TYPE2)
    else
      (if is_main_progenitor then GalaxyType.TYPE1 else GalaxyType.TYPE2) }
  if g1.galaxy_type = GalaxyType.TYPE2 then
    { g1 with
      concentration_type2 := parent.concentration,
      msubhalo_type2 := parent.Mvir,
      lambda_type2 := parent.lambda }
  else
    g1

/-- `adjust_main_galaxy` (evolve_halos.cpp lines 36–64), as its effect on the
one galaxy it may mutate: `none` when the parent has no principal galaxy
(in which case the source returns without doing anything), otherwise the
updated principal galaxy. -/
def adjust_main_galaxy (parent descendant : Subhalo) : Option Galaxy :=
  let main_galaxy :=
    if parent.subhalo_type = SubhaloType.CENTRAL then parent.central_galaxy
    else parent.type1_galaxy
  main_galaxy.map (adjustGalaxy parent descendant)

/-- `adjust_main_galaxy` seen as a transformation of the parent subhalo: the
principal galaxy is updated in place inside the parent's galaxy list. -/
def applyAdjustMainGalaxy (parent descendant : Subhalo) : Subhalo :=
  { parent with galaxies :=
      updateFirst (mainGalaxyPred parent) (adjustGalaxy parent descendant) parent.galaxies }

/-- Modelled from the spec: the additive merge of one baryon reservoir into
another ("the subhalo's cold-halo-gas, hot-halo-gas, and ejected-gas
reservoirs are additively merged into the descendant's corresponding
reservoirs"; the `+=` operator lives in the missing `components.h`): mass and
metal mass add, the receiving reservoir keeps its other fields. -/
def BaryonComponent.absorb (a b : BaryonComponent) : BaryonComponent :=
  { a with mass := a.mass + b.mass, mass_metals := a.mass_metals + b.mass_metals }

/-- The per-galaxy SFR/interaction reset applied at the start of the transfer
loop (evolve_halos.cpp lines 85–94). -/
def resetGalaxySFRs (g : Galaxy) : Galaxy :=
  { g with
    sfr_bulge_mergers := 0,
    sfr_z_bulge_mergers := 0,
    sfr_bulge_diskins := 0,
    sfr_z_bulge_diskins := 0,
    sfr_z_disk := 0,
    sfr_disk := 0,
    interaction := InteractionItem.restore_interaction_item }

/-- Modelled from the spec: a galaxy's contribution to its subhalo's total
baryon mass (the "lost baryons" tally sums "its total baryon mass";
`total_baryon_mass` lives in the missing `components.h`). -/
def Galaxy.baryon_mass (g : Galaxy) : ℚ :=
  g.disk_stars.mass + g.disk_gas.mass + g.bulge_stars.mass + g.bulge_gas.mass

/-- Modelled from the spec: `Subhalo::total_baryon_mass` — the subhalo's gas
reservoirs plus the baryon content of its galaxies. -/
def Subhalo.total_baryon_mass (s : Subhalo) : ℚ :=
  s.cold_halo_gas.mass + s.hot_halo_gas.mass + s.ejected_galaxy_gas.mass +
    (s.galaxies.map Galaxy.baryon_mass).sum

/-- The outcome of processing one subhalo inside
`transfer_galaxies_to_next_snapshot`: the (possibly emptied) subhalo, the
updated descendant when there is one, the contribution to the lost-baryon
tally, and whether a transfer was actually performed. -/
structure TransferOutcome where
  subhalo : Subhalo
  descendant : Option Subhalo
  lost_baryon_mass : ℚ
  transferred : Bool
  deriving DecidableEq, Repr

/-- The body of the per-subhalo loop of `transfer_galaxies_to_next_snapshot`
(evolve_halos.cpp lines 82–135): reset SFR accumulators and interaction
counters, skip satellites in their final identified snapshot, account lost
baryons for subhalos without a descendant, check snapshot adjacency (fatal on
violation), then adjust the main galaxy, hand all galaxies to the descendant
and additively merge the gas reservoirs, carrying the cooling tracking value
over only from the main progenitor. -/
def transfer_step (subhalo0 : Subhalo) (descendant : Option Subhalo) :
    Except SharkError TransferOutcome :=
  let subhalo := { subhalo0 with galaxies := subhalo0.galaxies.map resetGalaxySFRs }
  if subhalo.subhalo_type = SubhaloType.SATELLITE ∧
      subhalo.last_snapshot_identified = subhalo.snapshot then
    .ok { subhalo := subhalo, descendant := descendant, lost_baryon_mass := 0,
          transferred := false }
  else
    match descendant with
    | none =>
      .ok { subhalo := subhalo, descendant := none,
            lost_baryon_mass := subhalo.total_baryon_mass, transferred := false }
    | some d =>
      if subhalo.snapshot ≠ d.snapshot - 1 then
        .error (.invalid_argument "Descendant subhalo is not in the subsequent snapshot")
      else
        let parent := applyAdjustMainGalaxy subhalo d
        let d1 := { d with galaxies := d.galaxies ++ parent.galaxies }
        let parent1 := { parent with galaxies := [] }
        let d2 := { d1 with
          cold_halo_gas := d1.cold_halo_gas.absorb subhalo.cold_halo_gas,
          hot_halo_gas := d1.hot_halo_gas.absorb subhalo.hot_halo_gas,
          ejected_galaxy_gas := d1.ejected_galaxy_gas.absorb subhalo.ejected_galaxy_gas }
        let d3 :=
          if subhalo.main_progenitor then
            { d2 with cooling_subhalo_tracking := subhalo.cooling_subhalo_tracking }
          else
            d2
        .ok { subhalo := parent1, descendant := some d3, lost_baryon_mass := 0,
              transferred := true }

/-! ## Numeric integrator (`ode_solver.cpp`) -/

/-- The GSL status codes that `ODESolver::evolve` distinguishes.  An
unrecognized code is represented by `other diag`, where `diag` stands for the
`gsl_strerror` diagnostic text of that code (GSL is an external library; only
the diagnostic string of an unrecognized code is ever used). -/
inductive GslStatus where
  | success
  | failure
  | enoprog
  | ebadfunc
  | emaxiter
  | other (diag : String)
  deriving DecidableEq, Repr

/-- What one `gsl_odeiv2_driver_apply` call reports back: a status, and the
in-place-updated current time and state vector (GSL advances `t` and `y` as
far as it got even when it fails). -/
structure GslApplyResult where
  status : GslStatus
  t : ℚ
  y : List ℚ
  deriving DecidableEq, Repr

/-- The adaptive-stepping backend, abstractly: given the current time, the
requested target time and the current state vector, produce a status and the
updated time and state. -/
def GslDriver := ℚ → ℚ → List ℚ → GslApplyResult

/-- The members of `ODESolver` that `evolve` reads or writes
(ode_solver.h lines 125–132). -/
structure ODESolverState where
  y : List ℚ
  t : ℚ
  t0 : ℚ
  delta_t : ℚ
  step : ℕ
  deriving DecidableEq, Repr

/-- The target time of the next `evolve()` call: `t_i = t0 + step * delta_t`
with `step` already incremented (ode_solver.cpp lines 84–85).  It is computed
from `t0` and the call count only — never from the current time `t`. -/
def ODESolverState.nextTarget (s : ODESolverState) : ℚ :=
  s.t0 + (s.step + 1) * s.delta_t

/-- `ODESolver::evolve` (ode_solver.cpp lines 82–124).  Returns the updated
solver state, whether `gsl_odeiv2_driver_reset` was called, and either the
resulting state vector or the thrown `math_error`.  Step-size underflow
(`GSL_FAILURE`), stalled progress (`GSL_ENOPROG`) and the step-count ceiling
(`GSL_EMAXITER`) log a warning and force completion, returning the
best-available `y`; an evaluator-reported error (`GSL_EBADFUNC`) resets the
driver and throws; any other status throws with the backend's diagnostic
text. -/
def ODESolver.evolve (driver : GslDriver) (s : ODESolverState) :
    ODESolverState × Bool × Except SharkError (List ℚ) :=
  let t_i := s.nextTarget
  let r := driver s.t t_i s.y
  let s' := { s with step := s.step + 1, t := r.t, y := r.y }
  match r.status with
  | .success => (s', false, .ok s'.y)
  | .failure => (s', false, .ok s'.y)
  | .enoprog => (s', false, .ok s'.y)
  | .ebadfunc =>
    (s', true, .error (.math_error "Error while solving ODE system: user function signaled an error"))
  | .emaxiter => (s', false, .ok s'.y)
  | .other diag =>
    (s', false, .error (.math_error ("Error while solving ODE system: unexpected GSL error: " ++ diag)))

/-- The solver state as constructed by `ODESolver`'s constructor
(ode_solver.cpp lines 39–50): `y = y0`, `t = t0`, `step = 0`. -/
def ODESolver.init (y0 : List ℚ) (t0 delta_t : ℚ) : ODESolverState :=
  { y := y0, t := t0, t0 := t0, delta_t := delta_t, step := 0 }

/-- The solver state after `n` successive `evolve()` calls. -/
def ODESolver.run (driver : GslDriver) (y0 : List ℚ) (t0 delta_t : ℚ) :
    ℕ → ODESolverState
  | 0 => ODESolver.init y0 t0 delta_t
  | n + 1 => (ODESolver.evolve driver (ODESolver.run driver y0 t0 delta_t n)).1

/-! ## Stellar feedback submodel (`stellar_feedback.cpp`)

The feedback code computes with `std::pow` at non-integer exponents, so this
part of the embedding lives in `ℝ`, with `std::pow` modelled by `Real.rpow`
(written `x ^ (e : ℝ)`). -/

/-- Modelled from the spec: the "fixed small epsilon" `EPS3` added to `β₁` in
the tie-break (`numerical_constants.h` is not among the sources).  Only its
positivity matters to the verified claims; it is fixed to `10⁻³` here. -/
noncomputable def EPS3 : ℝ := 1 / 1000

/-- The six selectable feedback model families
(stellar_feedback.h / stellar_feedback.cpp lines 69–93). -/
inductive StellarFeedbackModel where
  | FIRE
  | GALFORM
  | LGALAXIES
  | LAGOS13
  | LAGOS13Trunc
  | GALFORMFIRE
  deriving DecidableEq, Repr

/-- The `StellarFeedbackParameters` fields that `outflow_rate` reads
(stellar_feedback.cpp lines 32–67). -/
structure StellarFeedbackParameters where
  model : StellarFeedbackModel
  galaxy_scaling : Bool
  beta_disk : ℝ
  v_sn : ℝ
  eps_halo : ℝ
  eps_disk : ℝ
  redshift_power : ℝ

/-- The characteristic supernova velocity `vsn = 1.9 * pow(v, 1.1)`
(stellar_feedback.cpp line 116). -/
noncomputable def vsnOf (v : ℝ) : ℝ := 1.9 * v ^ (1.1 : ℝ)

/-- The model-dependent factor `const_sn` (stellar_feedback.cpp lines
118–156); `power_index` starts at `beta_disk` and is overridden to 1 in the
FIRE and LAGOS13Trunc families when `v > v_sn`. -/
noncomputable def const_sn (p : StellarFeedbackParameters) (v z : ℝ) : ℝ :=
  match p.model with
  | .FIRE =>
    (1 + z) ^ p.redshift_power * (p.v_sn / v) ^ (if p.v_sn < v then (1 : ℝ) else p.beta_disk)
  | .LAGOS13 =>
    (p.v_sn * (1 + z) ^ p.redshift_power / v) ^ p.beta_disk
  | .LAGOS13Trunc =>
    (p.v_sn * (1 + z) ^ p.redshift_power / v) ^ (if p.v_sn < v then (1 : ℝ) else p.beta_disk)
  | .GALFORM =>
    (p.v_sn / v) ^ p.beta_disk
  | .LGALAXIES =>
    0.5 + (p.v_sn / v) ^ p.beta_disk
  | .GALFORMFIRE =>
    (1 + z) ^ p.redshift_power * (p.v_sn / v) ^ p.beta_disk

/-- The reheating loading before the tie-break:
`b1 = eps_disk * const_sn` (stellar_feedback.cpp line 158). -/
noncomputable def b1_raw (p : StellarFeedbackParameters) (v z : ℝ) : ℝ :=
  p.eps_disk * const_sn p v z

/-- The halo-ejection energy budget
`eps_halo = parameters.eps_halo * const_sn * 0.5 * pow(vsn, 2)`
(stellar_feedback.cpp line 160). -/
noncomputable def eps_halo_energy (p : StellarFeedbackParameters) (v z : ℝ) : ℝ :=
  p.eps_halo * const_sn p v z * 0.5 * (vsnOf v) ^ (2 : ℝ)

/-- The halo binding energy scale `energ_halo = 0.5 * pow(v, 2)`
(stellar_feedback.cpp line 162). -/
noncomputable def energ_halo (v : ℝ) : ℝ := 0.5 * v ^ (2 : ℝ)

/-- The energetically implied ejected mass rate
`mejected = eps_halo / energ_halo * sfr - mreheat`
(stellar_feedback.cpp lines 164–166). -/
noncomputable def mejected (p : StellarFeedbackParameters) (sfr v z : ℝ) : ℝ :=
  eps_halo_energy p v z / energ_halo v * sfr - b1_raw p v z * sfr

/-- `StellarFeedback::outflow_rate` (stellar_feedback.cpp lines 101–179):
returns the pair of mass-loading coefficients `(β₁, β₂)`.  The host velocity
is the subhalo or galaxy velocity depending on `galaxy_scaling`; degenerate
inputs yield `(0, 0)`; if the ejected mass is positive, `β₂` is the ejected
loading, capped at `β₁` (with `β₁` nudged up by `EPS3`) when it strictly
exceeds `β₁`; otherwise all loading folds into `β₁`. -/
noncomputable def outflow_rate (p : StellarFeedbackParameters)
    (sfr vsubh vgal z : ℝ) : ℝ × ℝ :=
  let v := if p.galaxy_scaling then vgal else vsubh
  if sfr ≤ 0 ∨ v ≤ 0 then (0, 0)
  else
    let b1 := b1_raw p v z
    let mej := mejected p sfr v z
    if 0 < mej then
      let b2 := mej / sfr
      if b1 < b2 then (b1 + EPS3, b1) else (b1, b2)
    else
      (eps_halo_energy p v z / energ_halo v, 0)

/-- An all-zero baryon component, used as a concrete fixture. -/
def zeroBaryon : BaryonComponent := { mass := 0, mass_metals := 0, sAM := 0, rscale := 0 }

/-- An all-zero galaxy of type CENTRAL, used as a concrete fixture. -/
def zeroGalaxy : Galaxy :=
  { disk_stars := zeroBaryon, disk_gas := zeroBaryon, bulge_stars := zeroBaryon,
    bulge_gas := zeroBaryon, galaxymergers_burst_stars := ⟨0, 0⟩,
    diskinstabilities_burst_stars := ⟨0, 0⟩, sfr_disk := 0, sfr_z_disk := 0,
    sfr_bulge_mergers := 0, sfr_z_bulge_mergers := 0, sfr_bulge_diskins := 0,
    sfr_z_bulge_diskins := 0, interaction := ⟨0, 0, 0⟩,
    galaxy_type := GalaxyType.CENTRAL, vmax := 0, concentration_type2 := 0,
    msubhalo_type2 := 0, lambda_type2 := 0 }

/-- An all-zero central subhalo with no galaxies, used as a concrete
fixture. -/
def zeroSubhalo : Subhalo :=
  { cold_halo_gas := zeroBaryon, hot_halo_gas := zeroBaryon,
    ejected_galaxy_gas := zeroBaryon, galaxies := [],
    subhalo_type := SubhaloType.CENTRAL, main_progenitor := false, snapshot := 0,
    last_snapshot_identified := 0, Vvir := 0, concentration := 0, Mvir := 0,
    lambda := 0, cooling_subhalo_tracking := 0 }

/-- A concrete main-progenitor subhalo at snapshot 3 with nonzero
reservoirs. -/
def progenitor9 : Subhalo :=
  { zeroSubhalo with
    cold_halo_gas := ⟨10, 1, 0, 0⟩,
    hot_halo_gas := ⟨20, 2, 0, 0⟩,
    ejected_galaxy_gas := ⟨30, 3, 0, 0⟩,
    main_progenitor := true,
    cooling_subhalo_tracking := 7,
    snapshot := 3 }

/-- A concrete descendant subhalo at snapshot 4. -/
def descendant9 : Subhalo :=
  { zeroSubhalo with
    cold_halo_gas := ⟨100, 5, 0, 0⟩,
    hot_halo_gas := ⟨200, 6, 0, 0⟩,
    ejected_galaxy_gas := ⟨300, 7, 0, 0⟩,
    snapshot := 4 }

/-- The descendant after the transfer: reservoirs additively merged, the
cooling tracking value taken from the main progenitor. -/
def descendant9' : Subhalo :=
  { descendant9 with
    cold_halo_gas := ⟨110, 6, 0, 0⟩,
    hot_halo_gas := ⟨220, 8, 0, 0⟩,
    ejected_galaxy_gas := ⟨330, 10, 0, 0⟩,
    cooling_subhalo_tracking := 7 }

/-- A GALFORM-family parameter set tuned so that the computed ejected loading
*exactly equals* the reheating loading at `v = 1`, `z = 0`:
`eps_disk = 3.61` and `eps_halo = 2` give `β₁ = 3.61` and an ejected loading
of `2 · 0.5 · 1.9² / 0.5 − 3.61 = 3.61` as well. -/
noncomputable def paramsTie : StellarFeedbackParameters :=
  { model := .GALFORM, galaxy_scaling := false, beta_disk := 2, v_sn := 1,
    eps_halo := 2, eps_disk := 3.61, redshift_power := 0 }

/-- A GALFORM-family parameter set for which the ejected loading strictly
exceeds the reheating loading at `v = 1`, `z = 0`, so the `EPS3` nudge
fires. -/
noncomputable def paramsNudge : StellarFeedbackParameters :=
  { model := .GALFORM, galaxy_scaling := false, beta_disk := 2, v_sn := 1,
    eps_halo := 1, eps_disk := 1, redshift_power := 0 }

/-- The all-zero 17-component state vector: every slot is below tolerance. -/
def yzero : List ℚ := [0, 0, 0, 0, 0, 0, 0, 0, 0, 0, 0, 0, 0, 0, 0, 0, 0]

/-- A state vector whose cold-halo-gas slot carries mass 1 but metal mass 2:
the written-back cold halo reservoir violates the metal bound. -/
def yMetalHeavy : List ℚ := [0, 0, 1, 0, 0, 0, 0, 2, 0, 0, 0, 0, 0, 0, 0, 0, 0]

/-- The subhalo produced by writing `yMetalHeavy` back into `zeroSubhalo`:
cold halo gas with more metal mass than total mass. -/
def subhaloMetalHeavy : Subhalo :=
  { zeroSubhalo with cold_halo_gas := ⟨1, 2, 0, 0⟩ }

/-- A galaxy whose disk stellar mass is positive but below tolerance. -/
def galaxyTiny : Galaxy :=
  { zeroGalaxy with disk_stars := ⟨5 / 10 ^ 11, 0, 0, 0⟩ }

/-- A state vector whose integrated stellar mass slightly exceeds
`galaxyTiny`'s but still lies below tolerance, so it gets snapped to zero. -/
def yTiny : List ℚ := [6 / 10 ^ 11, 0, 0, 0, 0, 0, 0, 0, 0, 0, 0, 0, 0, 0, 0, 0, 0]

/-- A state vector with negative integrated stellar mass, triggering the
non-decreasing check against any positive pre-call mass. -/
def yNeg : List ℚ := [-1, 0, 0, 0, 0, 0, 0, 0, 0, 0, 0, 0, 0, 0, 0, 0, 0]

/-! ## Properties of the write-back routines (`physical_model.cpp`) -/

/-- Metal snapping never changes the mass. -/
theorem snap_metals_mass (c : BaryonComponent) : (snap_metals c).mass = c.mass := by
  unfold snap_metals
  split <;> rfl

/-- The mass after mass snapping: zero below tolerance, unchanged
otherwise. -/
theorem snap_mass_mass (c : BaryonComponent) :
    (snap_mass c).mass = if c.mass < tolerance then 0 else c.mass := by
  unfold snap_mass
  split <;> rfl

/-- A component whose mass is below tolerance is restored wholesale. -/
theorem snap_mass_of_lt {c : BaryonComponent} (h : c.mass < tolerance) :
    snap_mass c = BaryonComponent.restore_baryon :=
  if_pos h

/-- What an `ok` return of `to_galaxy_checks` says: every component is the
metal- then mass-snapped input component, and the three checked gas
reservoirs satisfy the metal bound. -/
theorem to_galaxy_checks_ok (s : Subhalo) (g : Galaxy) (s' : Subhalo) (g' : Galaxy)
    (h : to_galaxy_checks s g = .ok (s', g')) :
    g'.disk_stars = snap_mass (snap_metals g.disk_stars) ∧
    g'.disk_gas = snap_mass (snap_metals g.disk_gas) ∧
    s'.cold_halo_gas = snap_mass (snap_metals s.cold_halo_gas) ∧
    s'.hot_halo_gas = snap_mass (snap_metals s.hot_halo_gas) ∧
    s'.ejected_galaxy_gas = snap_mass (snap_metals s.ejected_galaxy_gas) ∧
    g'.disk_gas.mass_metals ≤ g'.disk_gas.mass ∧
    s'.hot_halo_gas.mass_metals ≤ s'.hot_halo_gas.mass ∧
    s'.ejected_galaxy_gas.mass_metals ≤ s'.ejected_galaxy_gas.mass := by
  simp only [to_galaxy_checks] at h
  split_ifs at h with h1
  all_goals first
    | exact Except.noConfusion h
    | (injection h with h2
       rw [Prod.mk.injEq] at h2
       obtain ⟨rfl, rfl⟩ := h2.symm.imp Eq.symm Eq.symm
       push_neg at h1
       exact ⟨rfl, rfl, rfl, rfl, rfl, h1.1, h1.2.1, h1.2.2⟩)

/-- What an `ok` return of `to_galaxy_starburst_checks` says: the four written
components are the snapped inputs, the cold halo gas is untouched, and the
three checked gas reservoirs satisfy the metal bound. -/
theorem to_galaxy_starburst_checks_ok (s : Subhalo) (g : Galaxy) (s' : Subhalo)
    (g' : Galaxy) (h : to_galaxy_starburst_checks s g = .ok (s', g')) :
    g'.bulge_stars = snap_mass (snap_metals g.bulge_stars) ∧
    g'.bulge_gas = snap_mass (snap_metals g.bulge_gas) ∧
    s'.hot_halo_gas = snap_mass (snap_metals s.hot_halo_gas) ∧
    s'.ejected_galaxy_gas = snap_mass (snap_metals s.ejected_galaxy_gas) ∧
    s'.cold_halo_gas = s.cold_halo_gas ∧
    g'.bulge_gas.mass_metals ≤ g'.bulge_gas.mass ∧
    s'.hot_halo_gas.mass_metals ≤ s'.hot_halo_gas.mass ∧
    s'.ejected_galaxy_gas.mass_metals ≤ s'.ejected_galaxy_gas.mass := by
  simp only [to_galaxy_starburst_checks] at h
  split_ifs at h with h1
  all_goals first
    | exact Except.noConfusion h
    | (injection h with h2
       rw [Prod.mk.injEq] at h2
       obtain ⟨rfl, rfl⟩ := h2.symm.imp Eq.symm Eq.symm
       push_neg at h1
       exact ⟨rfl, rfl, rfl, rfl, rfl, h1.1, h1.2.1, h1.2.2⟩)

/-- What an `ok` return of `to_galaxy` says: the non-decreasing check passed,
each written reservoir is the snapped marshalled value (in particular its mass
is the integrated mass, snapped to zero below tolerance), and the three
checked gas reservoirs satisfy the metal bound. -/
theorem to_galaxy_ok (y : List ℚ) (s : Subhalo) (g : Galaxy) (dt : ℚ)
    (s' : Subhalo) (g' : Galaxy) (h : to_galaxy y s g dt = .ok (s', g')) :
    ¬y.getD 0 0 < g.disk_stars.mass ∧
    g'.disk_stars.mass = (if y.getD 0 0 < tolerance then 0 else y.getD 0 0) ∧
    (y.getD 0 0 < tolerance → g'.disk_stars = BaryonComponent.restore_baryon) ∧
    (y.getD 1 0 < tolerance → g'.disk_gas = BaryonComponent.restore_baryon) ∧
    (y.getD 2 0 < tolerance → s'.cold_halo_gas = BaryonComponent.restore_baryon) ∧
    (y.getD 3 0 < tolerance → s'.hot_halo_gas = BaryonComponent.restore_baryon) ∧
    (y.getD 4 0 < tolerance → s'.ejected_galaxy_gas = BaryonComponent.restore_baryon) ∧
    g'.disk_gas.mass_metals ≤ g'.disk_gas.mass ∧
    s'.hot_halo_gas.mass_metals ≤ s'.hot_halo_gas.mass ∧
    s'.ejected_galaxy_gas.mass_metals ≤ s'.ejected_galaxy_gas.mass := by
  simp only [to_galaxy] at h
  split_ifs at h with h0 h12 hr hn
  all_goals first
    | exact Except.noConfusion h
    | (obtain ⟨e1, e2, e3, e4, e5, b1, b2, b3⟩ := to_galaxy_checks_ok _ _ _ _ h
       refine ⟨h0, ?_, ?_, ?_, ?_, ?_, ?_, b1, b2, b3⟩
       · rw [e1, snap_mass_mass, snap_metals_mass]
       · intro hy
         rw [e1]
         exact snap_mass_of_lt (by rw [snap_metals_mass]; exact hy)
       · intro hy
         rw [e2]
         exact snap_mass_of_lt (by rw [snap_metals_mass]; exact hy)
       · intro hy
         rw [e3]
         exact snap_mass_of_lt (by rw [snap_metals_mass]; exact hy)
       · intro hy
         rw [e4]
         exact snap_mass_of_lt (by rw [snap_metals_mass]; exact hy)
       · intro hy
         rw [e5]
         exact snap_mass_of_lt (by rw [snap_metals_mass]; exact hy))

/-- What an `ok` return of `to_galaxy_starburst` says: the non-decreasing
check passed, each written reservoir is the snapped marshalled value, the
subhalo's cold halo gas is untouched, and the three checked gas reservoirs
satisfy the metal bound. -/
theorem to_galaxy_starburst_ok (y : List ℚ) (s : Subhalo) (g : Galaxy) (dt : ℚ)
    (fm : Bool) (s' : Subhalo) (g' : Galaxy)
    (h : to_galaxy_starburst y s g dt fm = .ok (s', g')) :
    ¬y.getD 0 0 < g.bulge_stars.mass ∧
    g'.bulge_stars.mass = (if y.getD 0 0 < tolerance then 0 else y.getD 0 0) ∧
    (y.getD 0 0 < tolerance → g'.bulge_stars = BaryonComponent.restore_baryon) ∧
    (y.getD 1 0 < tolerance → g'.bulge_gas = BaryonComponent.restore_baryon) ∧
    (y.getD 3 0 < tolerance → s'.hot_halo_gas = BaryonComponent.restore_baryon) ∧
    (y.getD 4 0 < tolerance → s'.ejected_galaxy_gas = BaryonComponent.restore_baryon) ∧
    s'.cold_halo_gas = s.cold_halo_gas ∧
    g'.bulge_gas.mass_metals ≤ g'.bulge_gas.mass ∧
    s'.hot_halo_gas.mass_metals ≤ s'.hot_halo_gas.mass ∧
    s'.ejected_galaxy_gas.mass_metals ≤ s'.ejected_galaxy_gas.mass := by
  simp only [to_galaxy_starburst] at h
  split_ifs at h with h0 hfm
  all_goals first
    | exact Except.noConfusion h
    | (obtain ⟨e1, e2, e3, e4, e5, b1, b2, b3⟩ := to_galaxy_starburst_checks_ok _ _ _ _ h
       refine ⟨h0, ?_, ?_, ?_, ?_, ?_, e5, b1, b2, b3⟩
       · rw [e1, snap_mass_mass, snap_metals_mass]
       · intro hy
         rw [e1]
         exact snap_mass_of_lt (by rw [snap_metals_mass]; exact hy)
       · intro hy
         rw [e2]
         exact snap_mass_of_lt (by rw [snap_metals_mass]; exact hy)
       · intro hy
         rw [e3]
         exact snap_mass_of_lt (by rw [snap_metals_mass]; exact hy)
       · intro hy
         rw [e4]
         exact snap_mass_of_lt (by rw [snap_metals_mass]; exact hy))

/-! ## Theorems: numeric integrator -/

/-- `evolve` always increments the call counter and never touches the
schedule data `t0`, `delta_t`, whatever the backend reported. -/
theorem evolve_schedule (driver : GslDriver) (s : ODESolverState) :
    (ODESolver.evolve driver s).1.step = s.step + 1 ∧
    (ODESolver.evolve driver s).1.t0 = s.t0 ∧
    (ODESolver.evolve driver s).1.delta_t = s.delta_t := by
  unfold ODESolver.evolve
  cases h : (driver s.t s.nextTarget s.y).status <;> simp [h]

/-- After `n` calls, the call counter is `n` and the schedule data is the
construction-time data. -/
theorem run_schedule (driver : GslDriver) (y0 : List ℚ) (t0 delta_t : ℚ) (n : ℕ) :
    (ODESolver.run driver y0 t0 delta_t n).step = n ∧
    (ODESolver.run driver y0 t0 delta_t n).t0 = t0 ∧
    (ODESolver.run driver y0 t0 delta_t n).delta_t = delta_t := by
  induction n with
  | zero => exact ⟨rfl, rfl, rfl⟩
  | succ n ih =>
    have h := evolve_schedule driver (ODESolver.run driver y0 t0 delta_t n)
    exact ⟨by rw [ODESolver.run, h.1, ih.1], by rw [ODESolver.run, h.2.1, ih.2.1],
      by rw [ODESolver.run, h.2.2, ih.2.2]⟩

/-- Claim C3: `ODESolver::evolve` distinguishes soft from hard backend
failures.  Step-size underflow (`GSL_FAILURE`), stalled progress
(`GSL_ENOPROG`) and the step-count ceiling (`GSL_EMAXITER`) return the
best-available state vector like a success; an evaluator-reported error
(`GSL_EBADFUNC`) throws a fatal `math_error` and is the only case in which
the driver state is reset; any other backend status throws a fatal
`math_error` carrying the backend's diagnostic text. -/
theorem C3_evolve_failure_policy (driver : GslDriver) (s : ODESolverState) :
    (ODESolver.evolve driver s).2.2 =
      (match (driver s.t s.nextTarget s.y).status with
       | .success => .ok (driver s.t s.nextTarget s.y).y
       | .failure => .ok (driver s.t s.nextTarget s.y).y
       | .enoprog => .ok (driver s.t s.nextTarget s.y).y
       | .emaxiter => .ok (driver s.t s.nextTarget s.y).y
       | .ebadfunc =>
         .error (.math_error "Error while solving ODE system: user function signaled an error")
       | .other diag =>
         .error (.math_error ("Error while solving ODE system: unexpected GSL error: " ++ diag))) ∧
    ((ODESolver.evolve driver s).2.1 = true ↔
      (driver s.t s.nextTarget s.y).status = GslStatus.ebadfunc) := by
  unfold ODESolver.evolve
  cases h : (driver s.t s.nextTarget s.y).status <;> simp [h]

/-- Claim C3 witness: a backend reporting an evaluator error makes `evolve`
reset the driver and throw a fatal numeric error, while one reporting a
step-count ceiling forces completion. -/
theorem C3_evolve_failure_policy_witness :
    (ODESolver.evolve (fun _ _ y => ⟨GslStatus.ebadfunc, 0, y⟩)
        (ODESolver.init [1] 0 1)).2.1 = true ∧
    (ODESolver.evolve (fun _ _ y => ⟨GslStatus.emaxiter, 0, y⟩)
        (ODESolver.init [1] 0 1)).2.2 = .ok [1] := by
  constructor
  · exact (C3_evolve_failure_policy (fun _ _ y => ⟨GslStatus.ebadfunc, 0, y⟩)
      (ODESolver.init [1] 0 1)).2.mpr rfl
  · exact (C3_evolve_failure_policy (fun _ _ y => ⟨GslStatus.emaxiter, 0, y⟩)
      (ODESolver.init [1] 0 1)).1

/-- Claim C8: the `n`-th `evolve()` call integrates to the target time
`t0 + n * delta_t` exactly: after `n` calls the next target is
`t0 + (n+1) * delta_t`, computed from `t0` and the call count only
(changing the current time `t` — the only state the internal adaptive
sub-steps advance — does not change the target), and on backend success the
call returns the state vector the backend produced at that target time. -/
theorem C8_evolve_target_exact (driver : GslDriver) (y0 : List ℚ)
    (t0 delta_t : ℚ) (n : ℕ) :
    (ODESolver.run driver y0 t0 delta_t n).nextTarget = t0 + (n + 1) * delta_t ∧
    (∀ t' : ℚ,
      ODESolverState.nextTarget { ODESolver.run driver y0 t0 delta_t n with t := t' } =
        (ODESolver.run driver y0 t0 delta_t n).nextTarget) ∧
    (∀ r : GslApplyResult,
      driver (ODESolver.run driver y0 t0 delta_t n).t
          (ODESolver.run driver y0 t0 delta_t n).nextTarget
          (ODESolver.run driver y0 t0 delta_t n).y = r →
      r.status = GslStatus.success →
      (ODESolver.evolve driver (ODESolver.run driver y0 t0 delta_t n)).2.2 = .ok r.y) := by
  obtain ⟨hstep, ht0, hdt⟩ := run_schedule driver y0 t0 delta_t n
  refine ⟨?_, ?_, ?_⟩
  · rw [ODESolverState.nextTarget, hstep, ht0, hdt]
  · intro t'
    rw [ODESolverState.nextTarget, ODESolverState.nextTarget]
  · intro r hr hs
    simp only [ODESolver.evolve]
    rw [hr, hs]

/-- Claim C8 witness: with a backend that lands on the requested target, the
third call of a solver built with `t0 = 5`, `delta_t = 2` aims at
`5 + 3 * 2 = 11` and returns the backend's state. -/
theorem C8_evolve_target_exact_witness :
    (ODESolver.run (fun _ ti y => ⟨GslStatus.success, ti, y⟩) [3] 5 2 2).nextTarget = 11 ∧
    (ODESolver.evolve (fun _ ti y => ⟨GslStatus.success, ti, y⟩)
        (ODESolver.run (fun _ ti y => ⟨GslStatus.success, ti, y⟩) [3] 5 2 2)).2.2 = .ok [3] := by
  have h := C8_evolve_target_exact (fun _ ti y => ⟨GslStatus.success, ti, y⟩) [3] 5 2 2
  constructor
  · rw [h.1]; norm_num
  · have hr := h.2.2 ⟨GslStatus.success,
      (ODESolver.run (fun _ ti y => ⟨GslStatus.success, ti, y⟩) [3] 5 2 2).nextTarget,
      (ODESolver.run (fun _ ti y => ⟨GslStatus.success, ti, y⟩) [3] 5 2 2).y⟩ rfl rfl
    rw [hr]
    have : (ODESolver.run (fun _ ti y => ⟨GslStatus.success, ti, y⟩) [3] 5 2 2).y = [3] := by
      decide
    rw [this]

/-! ## Theorems: snapshot transfer protocol -/

/-- The type `adjustGalaxy` writes is given by the 2×2 decision table on
(descendant is central, parent is main progenitor). -/
theorem adjustGalaxy_type (parent descendant : Subhalo) (g : Galaxy) :
    (adjustGalaxy parent descendant g).galaxy_type =
      (if descendant.subhalo_type = SubhaloType.CENTRAL then
        (if parent.main_progenitor then GalaxyType.CENTRAL else GalaxyType.TYPE2)
      else
        (if parent.main_progenitor then GalaxyType.TYPE1 else GalaxyType.TYPE2)) := by
  simp only [adjustGalaxy]
  by_cases hd : descendant.subhalo_type = SubhaloType.CENTRAL <;>
    by_cases hm : parent.main_progenitor = true <;>
      simp [hd, hm]

/-- Claim C4: for every progenitor subhalo that has a principal galaxy,
`adjust_main_galaxy` sets that galaxy's new type exactly by the 2×2 table on
(descendant subhalo is central, this subhalo is main progenitor):
(yes, yes) ↦ CENTRAL, (yes, no) ↦ TYPE2, (no, yes) ↦ TYPE1,
(no, no) ↦ TYPE2. -/
theorem C4_type_reassignment_table (parent descendant : Subhalo) (g : Galaxy)
    (h : adjust_main_galaxy parent descendant = some g) :
    (descendant.subhalo_type = SubhaloType.CENTRAL → parent.main_progenitor = true →
      g.galaxy_type = GalaxyType.CENTRAL) ∧
    (descendant.subhalo_type = SubhaloType.CENTRAL → parent.main_progenitor = false →
      g.galaxy_type = GalaxyType.TYPE2) ∧
    (descendant.subhalo_type ≠ SubhaloType.CENTRAL → parent.main_progenitor = true →
      g.galaxy_type = GalaxyType.TYPE1) ∧
    (descendant.subhalo_type ≠ SubhaloType.CENTRAL → parent.main_progenitor = false →
      g.galaxy_type = GalaxyType.TYPE2) := by
  simp only [adjust_main_galaxy, Option.map_eq_some'] at h
  obtain ⟨g0, -, rfl⟩ := h
  refine ⟨?_, ?_, ?_, ?_⟩ <;> intro h1 h2 <;>
    simp [adjustGalaxy_type, h1, h2]

/-- Claim C4 witness: a central main progenitor with one CENTRAL galaxy and a
central descendant keeps its principal galaxy CENTRAL. -/
theorem C4_type_reassignment_table_witness :
    adjust_main_galaxy
        { zeroSubhalo with galaxies := [zeroGalaxy], main_progenitor := true }
        zeroSubhalo =
      some (adjustGalaxy
        { zeroSubhalo with galaxies := [zeroGalaxy], main_progenitor := true }
        zeroSubhalo zeroGalaxy) ∧
    (adjustGalaxy
        { zeroSubhalo with galaxies := [zeroGalaxy], main_progenitor := true }
        zeroSubhalo zeroGalaxy).galaxy_type = GalaxyType.CENTRAL := by
  have h1 : adjust_main_galaxy
      { zeroSubhalo with galaxies := [zeroGalaxy], main_progenitor := true }
      zeroSubhalo =
      some (adjustGalaxy
        { zeroSubhalo with galaxies := [zeroGalaxy], main_progenitor := true }
        zeroSubhalo zeroGalaxy) := by decide
  exact ⟨h1, (C4_type_reassignment_table _ _ _ h1).1 rfl rfl⟩

/-- Claim C7: a subhalo that is actually transferred (not a satellite in its
final identified snapshot) to a descendant whose snapshot number is not
exactly one greater raises the fatal invalid-argument error; the error is
raised instead of any transfer, so no galaxy or reservoir is moved. -/
theorem C7_snapshot_adjacency_guard (s d : Subhalo)
    (hskip : ¬(s.subhalo_type = SubhaloType.SATELLITE ∧
      s.last_snapshot_identified = s.snapshot))
    (hsnap : s.snapshot ≠ d.snapshot - 1) :
    transfer_step s (some d) =
      .error (.invalid_argument "Descendant subhalo is not in the subsequent snapshot") := by
  simp only [transfer_step]
  rw [if_neg hskip, if_pos hsnap]

/-- Claim C7 witness: a central subhalo at snapshot 3 with a descendant at
snapshot 5 raises the fatal adjacency error. -/
theorem C7_snapshot_adjacency_guard_witness :
    transfer_step { zeroSubhalo with snapshot := 3 }
        (some { zeroSubhalo with snapshot := 5 }) =
      .error (.invalid_argument "Descendant subhalo is not in the subsequent snapshot") :=
  C7_snapshot_adjacency_guard _ _ (by decide) (by decide)

/-- Claim C9: for every subhalo actually transferred to a descendant, the
descendant's cold-halo-gas, hot-halo-gas and ejected-gas reservoirs each grow
by exactly the progenitor's corresponding reservoir (mass and metal mass),
and the cooling-tracking value is copied to the descendant exactly when the
progenitor is the main progenitor. -/
theorem C9_reservoir_transfer (s d : Subhalo) (out : TransferOutcome) (d' : Subhalo)
    (h : transfer_step s (some d) = .ok out) (ht : out.transferred = true)
    (hd : out.descendant = some d') :
    d'.cold_halo_gas.mass = d.cold_halo_gas.mass + s.cold_halo_gas.mass ∧
    d'.cold_halo_gas.mass_metals = d.cold_halo_gas.mass_metals + s.cold_halo_gas.mass_metals ∧
    d'.hot_halo_gas.mass = d.hot_halo_gas.mass + s.hot_halo_gas.mass ∧
    d'.hot_halo_gas.mass_metals = d.hot_halo_gas.mass_metals + s.hot_halo_gas.mass_metals ∧
    d'.ejected_galaxy_gas.mass = d.ejected_galaxy_gas.mass + s.ejected_galaxy_gas.mass ∧
    d'.ejected_galaxy_gas.mass_metals =
      d.ejected_galaxy_gas.mass_metals + s.ejected_galaxy_gas.mass_metals ∧
    d'.cooling_subhalo_tracking =
      (if s.main_progenitor then s.cooling_subhalo_tracking else d.cooling_subhalo_tracking) := by
  simp only [transfer_step] at h
  split_ifs at h with h1 h2 h3 <;> cases h <;>
    first
      | exact Bool.noConfusion ht
      | (obtain rfl := (Option.some.inj hd).symm
         simp [applyAdjustMainGalaxy, BaryonComponent.absorb, h3])

/-- Claim C9 witness: the transfer of `progenitor9` into `descendant9` merges
every reservoir additively and hands over the cooling tracking value. -/
theorem C9_reservoir_transfer_witness :
    descendant9'.cold_halo_gas.mass =
      descendant9.cold_halo_gas.mass + progenitor9.cold_halo_gas.mass ∧
    descendant9'.cold_halo_gas.mass_metals =
      descendant9.cold_halo_gas.mass_metals + progenitor9.cold_halo_gas.mass_metals ∧
    descendant9'.hot_halo_gas.mass =
      descendant9.hot_halo_gas.mass + progenitor9.hot_halo_gas.mass ∧
    descendant9'.hot_halo_gas.mass_metals =
      descendant9.hot_halo_gas.mass_metals + progenitor9.hot_halo_gas.mass_metals ∧
    descendant9'.ejected_galaxy_gas.mass =
      descendant9.ejected_galaxy_gas.mass + progenitor9.ejected_galaxy_gas.mass ∧
    descendant9'.ejected_galaxy_gas.mass_metals =
      descendant9.ejected_galaxy_gas.mass_metals + progenitor9.ejected_galaxy_gas.mass_metals ∧
    descendant9'.cooling_subhalo_tracking =
      (if progenitor9.main_progenitor then progenitor9.cooling_subhalo_tracking
       else descendant9.cooling_subhalo_tracking) := by
  have h : transfer_step progenitor9 (some descendant9) =
      .ok ⟨{ progenitor9 with galaxies := [] }, some descendant9', 0, true⟩ := by
    norm_num [transfer_step, applyAdjustMainGalaxy, mainGalaxyPred, updateFirst,
      BaryonComponent.absorb, progenitor9, descendant9, descendant9', zeroSubhalo,
      zeroBaryon, resetGalaxySFRs]
  exact C9_reservoir_transfer progenitor9 descendant9 _ descendant9' h rfl rfl

/-! ## Theorems: physical-model write-back -/

/-- Claim C6: every reservoir written back by `to_galaxy` (disk stars, disk
gas, cold halo gas, hot halo gas, ejected gas) or `to_galaxy_starburst`
(bulge stars, bulge gas, hot halo gas, ejected gas) whose integrated mass is
below the tolerance is reset to the canonical empty state, so on a normal
return it has mass 0, metal mass 0 and all other fields zeroed. -/
theorem C6_reservoir_snapping (y : List ℚ) (s : Subhalo) (g : Galaxy) (dt : ℚ)
    (fm : Bool) (s₁ s₂ : Subhalo) (g₁ g₂ : Galaxy) :
    (to_galaxy y s g dt = .ok (s₁, g₁) →
      (y.getD 0 0 < tolerance → g₁.disk_stars = BaryonComponent.restore_baryon) ∧
      (y.getD 1 0 < tolerance → g₁.disk_gas = BaryonComponent.restore_baryon) ∧
      (y.getD 2 0 < tolerance → s₁.cold_halo_gas = BaryonComponent.restore_baryon) ∧
      (y.getD 3 0 < tolerance → s₁.hot_halo_gas = BaryonComponent.restore_baryon) ∧
      (y.getD 4 0 < tolerance → s₁.ejected_galaxy_gas = BaryonComponent.restore_baryon)) ∧
    (to_galaxy_starburst y s g dt fm = .ok (s₂, g₂) →
      (y.getD 0 0 < tolerance → g₂.bulge_stars = BaryonComponent.restore_baryon) ∧
      (y.getD 1 0 < tolerance → g₂.bulge_gas = BaryonComponent.restore_baryon) ∧
      (y.getD 3 0 < tolerance → s₂.hot_halo_gas = BaryonComponent.restore_baryon) ∧
      (y.getD 4 0 < tolerance → s₂.ejected_galaxy_gas = BaryonComponent.restore_baryon)) := by
  constructor
  · intro h
    obtain ⟨-, -, r0, r1, r2, r3, r4, -, -, -⟩ := to_galaxy_ok y s g dt s₁ g₁ h
    exact ⟨r0, r1, r2, r3, r4⟩
  · intro h
    obtain ⟨-, -, r0, r1, r3, r4, -, -, -, -⟩ := to_galaxy_starburst_ok y s g dt fm s₂ g₂ h
    exact ⟨r0, r1, r3, r4⟩

/-- Claim C6 witness: writing back the all-zero state vector empties every
reservoir of the zero fixtures, for both write-back routines. -/
theorem C6_reservoir_snapping_witness :
    to_galaxy yzero zeroSubhalo zeroGalaxy 1 = .ok (zeroSubhalo, zeroGalaxy) ∧
    to_galaxy_starburst yzero zeroSubhalo zeroGalaxy 1 false = .ok (zeroSubhalo, zeroGalaxy) ∧
    zeroGalaxy.disk_stars = BaryonComponent.restore_baryon ∧
    zeroSubhalo.cold_halo_gas = BaryonComponent.restore_baryon ∧
    zeroGalaxy.bulge_stars = BaryonComponent.restore_baryon := by
  have h1 : to_galaxy yzero zeroSubhalo zeroGalaxy 1 = .ok (zeroSubhalo, zeroGalaxy) := by
    norm_num [to_galaxy, to_galaxy_checks, snap_metals, snap_mass,
      BaryonComponent.restore_baryon, tolerance, isNaN, yzero, zeroSubhalo, zeroGalaxy,
      zeroBaryon]
  have h2 : to_galaxy_starburst yzero zeroSubhalo zeroGalaxy 1 false =
      .ok (zeroSubhalo, zeroGalaxy) := by
    norm_num [to_galaxy_starburst, to_galaxy_starburst_checks, snap_metals, snap_mass,
      BaryonComponent.restore_baryon, tolerance, isNaN, yzero, zeroSubhalo, zeroGalaxy,
      zeroBaryon]
  have hc := C6_reservoir_snapping yzero zeroSubhalo zeroGalaxy 1 false
    zeroSubhalo zeroSubhalo zeroGalaxy zeroGalaxy
  exact ⟨h1, h2, (hc.1 h1).1 (by norm_num [yzero, tolerance]),
    (hc.1 h1).2.2.1 (by norm_num [yzero, tolerance]),
    (hc.2 h2).1 (by norm_num [yzero, tolerance])⟩

/-- Claim C5 (amended): the non-decreasing stellar-mass check is exactly the
first check of each write-back, and the written-back stellar mass is at least
the pre-call stellar mass on every normal return, provided the integrated
mass is not snapped away (it is at least the tolerance) or the pre-call mass
was not positive. -/
theorem C5_monotonic_stellar_mass (y : List ℚ) (s : Subhalo) (g : Galaxy)
    (dt : ℚ) (fm : Bool) (s₁ s₂ : Subhalo) (g₁ g₂ : Galaxy) :
    (y.getD 0 0 < g.disk_stars.mass →
      to_galaxy y s g dt =
        .error (.invalid_argument "Galaxy decreased its stellar mass after disk star formation process.")) ∧
    (to_galaxy y s g dt = .ok (s₁, g₁) →
      tolerance ≤ y.getD 0 0 ∨ g.disk_stars.mass ≤ 0 →
      g.disk_stars.mass ≤ g₁.disk_stars.mass) ∧
    (y.getD 0 0 < g.bulge_stars.mass →
      to_galaxy_starburst y s g dt fm =
        .error (.invalid_argument "Galaxy decreased its stellar mass after burst of star formation.")) ∧
    (to_galaxy_starburst y s g dt fm = .ok (s₂, g₂) →
      tolerance ≤ y.getD 0 0 ∨ g.bulge_stars.mass ≤ 0 →
      g.bulge_stars.mass ≤ g₂.bulge_stars.mass) := by
  refine ⟨?_, ?_, ?_, ?_⟩
  · intro h0
    simp only [to_galaxy]
    rw [if_pos h0]
  · intro h hcase
    obtain ⟨hnd, hm, -, -, -, -, -, -, -, -⟩ := to_galaxy_ok y s g dt s₁ g₁ h
    rw [hm]
    rcases hcase with hc | hc
    · rw [if_neg (not_lt.mpr hc)]
      exact not_lt.mp hnd
    · split
      · exact hc
      · exact not_lt.mp hnd
  · intro h0
    simp only [to_galaxy_starburst]
    rw [if_pos h0]
  · intro h hcase
    obtain ⟨hnd, hm, -, -, -, -, -, -, -, -⟩ := to_galaxy_starburst_ok y s g dt fm s₂ g₂ h
    rw [hm]
    rcases hcase with hc | hc
    · rw [if_neg (not_lt.mpr hc)]
      exact not_lt.mp hnd
    · split
      · exact hc
      · exact not_lt.mp hnd

/-- Claim C5 counterexample: the claim's unconditional "written-back stellar
mass ≥ pre-call stellar mass" fails.  With pre-call disk stellar mass
`5·10⁻¹¹ > 0` and integrated mass `6·10⁻¹¹` (so the non-decreasing check
passes), the snapping step resets the disk stars to zero and `to_galaxy`
returns normally with a *smaller* stellar mass. -/
theorem C5_counterexample :
    to_galaxy yTiny zeroSubhalo galaxyTiny 1 = .ok (zeroSubhalo, zeroGalaxy) ∧
    zeroGalaxy.disk_stars.mass < galaxyTiny.disk_stars.mass := by
  constructor
  · norm_num [to_galaxy, to_galaxy_checks, snap_metals, snap_mass,
      BaryonComponent.restore_baryon, tolerance, isNaN, yTiny, zeroSubhalo, zeroGalaxy,
      zeroBaryon, galaxyTiny]
  · norm_num [zeroGalaxy, galaxyTiny, zeroBaryon]

/-- Claim C5 witness: the error branch fires on a decreasing stellar mass, and
the amended monotonicity holds on a normal return of the zero fixtures. -/
theorem C5_monotonic_stellar_mass_witness :
    to_galaxy yNeg zeroSubhalo galaxyTiny 1 =
      .error (.invalid_argument "Galaxy decreased its stellar mass after disk star formation process.") ∧
    zeroGalaxy.disk_stars.mass ≤ zeroGalaxy.disk_stars.mass := by
  constructor
  · exact (C5_monotonic_stellar_mass yNeg zeroSubhalo galaxyTiny 1 false
      zeroSubhalo zeroSubhalo zeroGalaxy zeroGalaxy).1
      (by norm_num [yNeg, galaxyTiny])
  · refine (C5_monotonic_stellar_mass yzero zeroSubhalo zeroGalaxy 1 false
      zeroSubhalo zeroSubhalo zeroGalaxy zeroGalaxy).2.1 ?_
      (Or.inr (by norm_num [zeroGalaxy, zeroBaryon]))
    norm_num [to_galaxy, to_galaxy_checks, snap_metals, snap_mass,
      BaryonComponent.restore_baryon, tolerance, isNaN, yzero, zeroSubhalo, zeroGalaxy,
      zeroBaryon]

/-- Claim C2 (amended): on every normal return the metal-exceeds-mass check
guarantees the metal bound exactly for the gas reservoirs it inspects —
disk gas, hot halo gas and ejected gas for `to_galaxy`; bulge gas, hot halo
gas and ejected gas for `to_galaxy_starburst`. -/
theorem C2_gas_metal_bound (y : List ℚ) (s : Subhalo) (g : Galaxy) (dt : ℚ)
    (fm : Bool) (s₁ s₂ : Subhalo) (g₁ g₂ : Galaxy) :
    (to_galaxy y s g dt = .ok (s₁, g₁) →
      g₁.disk_gas.mass_metals ≤ g₁.disk_gas.mass ∧
      s₁.hot_halo_gas.mass_metals ≤ s₁.hot_halo_gas.mass ∧
      s₁.ejected_galaxy_gas.mass_metals ≤ s₁.ejected_galaxy_gas.mass) ∧
    (to_galaxy_starburst y s g dt fm = .ok (s₂, g₂) →
      g₂.bulge_gas.mass_metals ≤ g₂.bulge_gas.mass ∧
      s₂.hot_halo_gas.mass_metals ≤ s₂.hot_halo_gas.mass ∧
      s₂.ejected_galaxy_gas.mass_metals ≤ s₂.ejected_galaxy_gas.mass) := by
  constructor
  · intro h
    obtain ⟨-, -, -, -, -, -, -, b1, b2, b3⟩ := to_galaxy_ok y s g dt s₁ g₁ h
    exact ⟨b1, b2, b3⟩
  · intro h
    obtain ⟨-, -, -, -, -, -, -, b1, b2, b3⟩ := to_galaxy_starburst_ok y s g dt fm s₂ g₂ h
    exact ⟨b1, b2, b3⟩

/-- Claim C2 counterexample: the cold-halo-gas reservoir (and likewise the
stellar reservoirs) is *not* covered by the metal-exceeds-mass check: writing
back a state with cold halo mass 1 and cold halo metal mass 2 returns
normally, leaving a reservoir whose metal mass exceeds its total mass. -/
theorem C2_counterexample :
    to_galaxy yMetalHeavy zeroSubhalo zeroGalaxy 1 = .ok (subhaloMetalHeavy, zeroGalaxy) ∧
    subhaloMetalHeavy.cold_halo_gas.mass < subhaloMetalHeavy.cold_halo_gas.mass_metals := by
  constructor
  · norm_num [to_galaxy, to_galaxy_checks, snap_metals, snap_mass,
      BaryonComponent.restore_baryon, tolerance, isNaN, yMetalHeavy, zeroSubhalo,
      zeroGalaxy, zeroBaryon, subhaloMetalHeavy]
  · norm_num [subhaloMetalHeavy]

/-- Claim C2 witness: on the zero fixtures both write-backs return normally
with the checked gas reservoirs satisfying the metal bound. -/
theorem C2_gas_metal_bound_witness :
    zeroGalaxy.disk_gas.mass_metals ≤ zeroGalaxy.disk_gas.mass ∧
    zeroSubhalo.hot_halo_gas.mass_metals ≤ zeroSubhalo.hot_halo_gas.mass := by
  have h1 : to_galaxy yzero zeroSubhalo zeroGalaxy 1 = .ok (zeroSubhalo, zeroGalaxy) := by
    norm_num [to_galaxy, to_galaxy_checks, snap_metals, snap_mass,
      BaryonComponent.restore_baryon, tolerance, isNaN, yzero, zeroSubhalo, zeroGalaxy,
      zeroBaryon]
  have h := (C2_gas_metal_bound yzero zeroSubhalo zeroGalaxy 1 false
    zeroSubhalo zeroSubhalo zeroGalaxy zeroGalaxy).1 h1
  exact ⟨h.1, h.2.1⟩

/-- Claim C10: `evolve_galaxy_starburst` leaves the subhalo's cold-halo-gas
reservoir entirely unchanged (mass, metal mass and specific angular momentum
alike) for every integrator, and the starburst marshalling writes zeros into
the cooling-gas slots (indices 2 and 7) of the state vector. -/
theorem C10_starburst_cold_halo_frame (integrate : List ℚ → List ℚ)
    (s : Subhalo) (g : Galaxy) (dt : ℚ) (fm : Bool) (s' : Subhalo) (g' : Galaxy) :
    (evolve_galaxy_starburst integrate s g dt fm = .ok (s', g') →
      s'.cold_halo_gas = s.cold_halo_gas) ∧
    (from_galaxy_starburst s g).getD 2 0 = 0 ∧
    (from_galaxy_starburst s g).getD 7 0 = 0 := by
  refine ⟨?_, rfl, rfl⟩
  intro h
  simp only [evolve_galaxy_starburst] at h
  rw [if_neg (by norm_num [from_galaxy_starburst])] at h
  exact (to_galaxy_starburst_ok _ _ _ _ _ _ _ h).2.2.2.2.2.2.1

/-- Claim C10 witness: with the identity integrator on the zero fixtures the
starburst returns normally and the cold halo gas is unchanged. -/
theorem C10_starburst_cold_halo_frame_witness :
    evolve_galaxy_starburst id zeroSubhalo zeroGalaxy 1 false = .ok (zeroSubhalo, zeroGalaxy) ∧
    zeroSubhalo.cold_halo_gas = zeroSubhalo.cold_halo_gas := by
  have h1 : evolve_galaxy_starburst id zeroSubhalo zeroGalaxy 1 false =
      .ok (zeroSubhalo, zeroGalaxy) := by
    norm_num [evolve_galaxy_starburst, from_galaxy_starburst, to_galaxy_starburst,
      to_galaxy_starburst_checks, snap_metals, snap_mass,
      BaryonComponent.restore_baryon, tolerance, isNaN, zeroSubhalo, zeroGalaxy,
      zeroBaryon]
  exact ⟨h1, (C10_starburst_cold_halo_frame id zeroSubhalo zeroGalaxy 1 false
    zeroSubhalo zeroGalaxy).1 h1⟩

/-! ## Theorems: stellar feedback -/

/-- Under nonnegative configuration parameters and a nonnegative redshift,
every model family produces a nonnegative `const_sn`. -/
theorem const_sn_nonneg (p : StellarFeedbackParameters) (v z : ℝ)
    (hv : 0 < v) (hvsn : 0 ≤ p.v_sn) (hz : 0 ≤ z) : 0 ≤ const_sn p v z := by
  obtain ⟨m, gs, bd, vsn, ehalo, edisk, rp⟩ := p
  have h1z : (0 : ℝ) ≤ 1 + z := by linarith
  have hdiv : 0 ≤ vsn / v := div_nonneg hvsn hv.le
  have hmixed : 0 ≤ vsn * (1 + z) ^ rp / v :=
    div_nonneg (mul_nonneg hvsn (Real.rpow_nonneg h1z rp)) hv.le
  cases m <;> simp only [const_sn]
  case FIRE => exact mul_nonneg (Real.rpow_nonneg h1z rp) (Real.rpow_nonneg hdiv _)
  case GALFORM => exact Real.rpow_nonneg hdiv bd
  case LGALAXIES => exact add_nonneg (by norm_num) (Real.rpow_nonneg hdiv bd)
  case LAGOS13 => exact Real.rpow_nonneg hmixed bd
  case LAGOS13Trunc => exact Real.rpow_nonneg hmixed _
  case GALFORMFIRE => exact mul_nonneg (Real.rpow_nonneg h1z rp) (Real.rpow_nonneg hdiv bd)

/-- Claim C1 (amended): for inputs with SFR > 0 and positive selected host
velocity, and nonnegative `v_sn`, redshift and efficiency parameters,
`outflow_rate` returns `β₁ ≥ β₂ ≥ 0`; the `EPS3` nudge (and with it strict
ordering) applies when the ejected loading *strictly* exceeds the reheating
loading, and more generally `β₁ > β₂` whenever the ejected mass is positive
and the ejected loading differs from the reheating loading — but at exact
equality of the two loadings `β₁ = β₂` is returned. -/
theorem C1_feedback_ordering (p : StellarFeedbackParameters) (sfr vsubh vgal z : ℝ)
    (hsfr : 0 < sfr) (hv : 0 < (if p.galaxy_scaling then vgal else vsubh))
    (hvsn : 0 ≤ p.v_sn) (hz : 0 ≤ z) (hed : 0 ≤ p.eps_disk) (heh : 0 ≤ p.eps_halo) :
    0 ≤ (outflow_rate p sfr vsubh vgal z).2 ∧
    (outflow_rate p sfr vsubh vgal z).2 ≤ (outflow_rate p sfr vsubh vgal z).1 ∧
    (0 < mejected p sfr (if p.galaxy_scaling then vgal else vsubh) z →
      mejected p sfr (if p.galaxy_scaling then vgal else vsubh) z / sfr ≠
        b1_raw p (if p.galaxy_scaling then vgal else vsubh) z →
      (outflow_rate p sfr vsubh vgal z).2 < (outflow_rate p sfr vsubh vgal z).1) := by
  set v := if p.galaxy_scaling then vgal else vsubh with hvdef
  have hguard : ¬(sfr ≤ 0 ∨ v ≤ 0) := by push_neg; exact ⟨hsfr, hv⟩
  have hcs : 0 ≤ const_sn p v z := const_sn_nonneg p v z hv hvsn hz
  have hb1 : 0 ≤ b1_raw p v z := mul_nonneg hed hcs
  have heps3 : (0 : ℝ) < EPS3 := by norm_num [EPS3]
  have hee : 0 ≤ eps_halo_energy p v z :=
    mul_nonneg (mul_nonneg (mul_nonneg heh hcs) (by norm_num))
      (Real.rpow_nonneg (mul_nonneg (by norm_num) (Real.rpow_nonneg hv.le _)) _)
  have heng : 0 ≤ energ_halo v :=
    mul_nonneg (by norm_num) (Real.rpow_nonneg hv.le _)
  simp only [outflow_rate, ← hvdef]
  rw [if_neg hguard]
  by_cases hmej : 0 < mejected p sfr v z
  · rw [if_pos hmej]
    by_cases hlt : b1_raw p v z < mejected p sfr v z / sfr
    · rw [if_pos hlt]
      exact ⟨hb1, by simp; linarith, fun _ _ => by simp; linarith⟩
    · rw [if_neg hlt]
      refine ⟨div_nonneg hmej.le hsfr.le, not_lt.mp hlt, fun _ hne => ?_⟩
      exact lt_of_le_of_ne (not_lt.mp hlt) hne
  · rw [if_neg hmej]
    exact ⟨le_rfl, div_nonneg hee heng, fun hc _ => absurd hc hmej⟩

/-- For a GALFORM-family parameter set with `v_sn = 1`, the model factor at
`v = 1` is exactly 1, whatever the slope `beta_disk`. -/
theorem const_sn_galform_one (p : StellarFeedbackParameters)
    (hm : p.model = .GALFORM) (h1 : p.v_sn = 1) (z : ℝ) :
    const_sn p 1 z = 1 := by
  simp [const_sn, hm, h1, Real.one_rpow]

/-- The energy ratio `eps_halo_energy / energ_halo` at `v = 1` is
`eps_halo · const_sn · 1.9²`. -/
theorem energy_ratio_at_one (p : StellarFeedbackParameters) (z : ℝ) :
    eps_halo_energy p 1 z / energ_halo 1 =
      p.eps_halo * const_sn p 1 z * 3.61 := by
  rw [eps_halo_energy, energ_halo, vsnOf, Real.one_rpow, mul_one, Real.one_rpow,
    Real.rpow_two]
  norm_num
  ring

/-- Claim C1 counterexample: the claim fails at a valid input (SFR = 1 > 0,
selected velocity = 1 > 0).  With `paramsTie` the ejected loading *equals*
the reheating loading; the source only nudges when `b2 > b1` holds strictly,
so `outflow_rate` returns `β₁ = β₂ = 3.61` — neither is `β₂` capped-and-
`β₁`-nudged as the claim demands for the "equal" case, nor does
`β₁ > β₂` hold. -/
theorem C1_counterexample :
    outflow_rate paramsTie 1 1 1 0 = (3.61, 3.61) ∧
    ¬(outflow_rate paramsTie 1 1 1 0).2 < (outflow_rate paramsTie 1 1 1 0).1 := by
  have hcs : const_sn paramsTie 1 0 = 1 :=
    const_sn_galform_one paramsTie rfl rfl 0
  have hb1 : b1_raw paramsTie 1 0 = 3.61 := by
    rw [b1_raw, hcs, mul_one]
    norm_num [paramsTie]
  have hmej : mejected paramsTie 1 1 0 = 3.61 := by
    rw [mejected, energy_ratio_at_one, hcs, hb1]
    norm_num [paramsTie]
  have hout : outflow_rate paramsTie 1 1 1 0 = (3.61, 3.61) := by
    simp only [outflow_rate, ite_self]
    rw [if_neg (by norm_num), if_pos (by rw [hmej]; norm_num),
      if_neg (by rw [hmej, hb1]; norm_num), hb1, hmej]
    norm_num
  exact ⟨hout, by rw [hout]; norm_num⟩

/-- Claim C1 witness: with `paramsNudge` the ejected loading strictly exceeds
the reheating loading, so the amended ordering theorem yields
`β₁ > β₂ ≥ 0` at SFR = 1, velocity = 1, redshift 0. -/
theorem C1_feedback_ordering_witness :
    0 ≤ (outflow_rate paramsNudge 1 1 1 0).2 ∧
    (outflow_rate paramsNudge 1 1 1 0).2 < (outflow_rate paramsNudge 1 1 1 0).1 := by
  have hcs : const_sn paramsNudge 1 0 = 1 :=
    const_sn_galform_one paramsNudge rfl rfl 0
  have hb1 : b1_raw paramsNudge 1 0 = 1 := by
    rw [b1_raw, hcs, mul_one]
    norm_num [paramsNudge]
  have hmej : mejected paramsNudge 1 1 0 = 2.61 := by
    rw [mejected, energy_ratio_at_one, hcs, hb1]
    norm_num [paramsNudge]
  have hsel : (if paramsNudge.galaxy_scaling then (1 : ℝ) else 1) = 1 := ite_self 1
  have h := C1_feedback_ordering paramsNudge 1 1 1 0 (by norm_num)
    (by rw [hsel]; norm_num) (by norm_num [paramsNudge]) le_rfl
    (by norm_num [paramsNudge]) (by norm_num [paramsNudge])
  refine ⟨h.1, h.2.2 ?_ ?_⟩
  · rw [hsel, hmej]
    norm_num
  · rw [hsel, hmej, hb1]
    norm_num

end shark
